import Mathlib

/-!
Shallow embedding of the document verification job pipeline of
`app/services/document_processor.py` (class `DocumentProcessor`), together
with the job rows and the onboarding aggregate record it reads and writes.

External effects are modelled as explicit inputs:
  * the content fetch (`requests.get(document_url)`) is an `Option` of the
    fetched bytes (`none` = the fetch raised);
  * each outbound oracle call (OCR, face, bank) is an `Option` of the JSON
    body of the response (`none` = `requests.RequestException`); absent JSON
    keys are `Option` fields, mirroring Python's `dict.get(key, default)`;
  * `hashlib.sha256(...).hexdigest()` is an arbitrary function parameter
    `sha256 : List Nat → String` over byte strings;
  * timestamps (`func.now()`) are modelled as flags recording whether the
    column was ever set.
-/

namespace DocProc

/-- `job_status` values of a `DocumentProcessingJob` row. -/
inductive JobStatus
  | queued
  | processing
  | completed
  | failed
  | retrying
deriving DecidableEq, Repr

/-- JSON body returned by the OCR service (`_extract_text_from_image`):
keys `text`, `confidence`, `processing_time`, `language`, each possibly
absent. -/
structure OcrJson where
  text : Option String := none
  confidence : Option Int := none
  processing_time : Option Int := none
  language : Option String := none
deriving DecidableEq, Repr

/-- The dict returned by `_extract_text_from_image`: keys `success`,
`extracted_text`, `metadata` (with `confidence`, `processing_time`,
`language` inside) and, on failure, `error`.  The dict never carries a
top-level `confidence` key; `top_confidence` records that key so that
`extraction_result.get('confidence', d)` can be read off faithfully. -/
structure ExtractionResult where
  success : Bool
  extracted_text : String
  metadata_confidence : Option Int
  top_confidence : Option Int
  error : Option String
deriving DecidableEq, Repr

/-- `_extract_text_from_image`: on a response, success with
`result.get('text', '')` and metadata confidence `result.get('confidence', 0)`;
on `requests.RequestException`, failure with an error message, empty text and
empty metadata. -/
def extractTextFromImage (resp : Option OcrJson) : ExtractionResult :=
  match resp with
  | some r =>
    { success := true
      extracted_text := r.text.getD ""
      metadata_confidence := some (r.confidence.getD 0)
      top_confidence := none
      error := none }
  | none =>
    { success := false
      extracted_text := ""
      metadata_confidence := none
      top_confidence := none
      error := some "OCR service unavailable" }

/-- Verification-result dict: `verified` is always present; every other key
is present only on the branches of the source that set it. -/
structure VerificationResult where
  verified : Bool
  confidence_score : Option Int := none
  error_message : Option String := none
  face_count : Option Int := none
  liveness_detected : Option Bool := none
  validation_passed : Option Bool := none
  doc_type_field : Option String := none
  nin : Option String := none
  bvn : Option String := none
  name : Option String := none
deriving DecidableEq, Repr

/-- Word character for the regex `\b` boundary: `[A-Za-z0-9_]`. -/
def isWordChar (c : Char) : Bool :=
  c.isAlpha || c.isDigit || c = '_'

/-- Whether the regex `\b\d{11}\b` matches at the head of `cs`, given that
the word-boundary condition on the left of the head already holds: the next
eleven characters exist and are digits, and the character after them (if
any) is not a word character. -/
def matchesElevenHere (cs : List Char) : Bool :=
  decide ((cs.take 11).length = 11) && (cs.take 11).all Char.isDigit &&
    (match cs.drop 11 with
     | [] => true
     | c :: _ => !isWordChar c)

/-- `re.search(r'\b\d{11}\b', text)` over the character list: scan left to
right, tracking the previous character for the left word boundary, and
return the first eleven-digit match. -/
def searchEleven (prev : Option Char) (cs : List Char) : Option (List Char) :=
  let boundaryOk := match prev with
    | none => true
    | some c => !isWordChar c
  if boundaryOk && matchesElevenHere cs then
    some (cs.take 11)
  else
    match cs with
    | [] => none
    | c :: rest => searchEleven (some c) rest

/-- `_verify_nin`: search the extracted text for `\b\d{11}\b`; on a match,
report verified with confidence 95 and the matched number; otherwise report
not verified with the pattern-not-found message. -/
def verifyNin (extracted_text : String) : VerificationResult :=
  match searchEleven none extracted_text.data with
  | some ds =>
    { verified := true
      confidence_score := some 95
      nin := some (String.mk ds)
      name := some "Verified Name"
      error_message := none }
  | none =>
    { verified := false
      error_message := some "NIN not found in document"
      confidence_score := some 0 }

/-- `_verify_bvn`: same eleven-digit search with the BVN message. -/
def verifyBvn (extracted_text : String) : VerificationResult :=
  match searchEleven none extracted_text.data with
  | some ds =>
    { verified := true
      confidence_score := some 95
      bvn := some (String.mk ds)
      name := none
      error_message := none }
  | none =>
    { verified := false
      error_message := some "BVN not found in document"
      confidence_score := some 0 }

/-- `_verify_id_document`: always verified, confidence
`metadata.get('confidence', 85)`. -/
def verifyIdDocument (metadata_confidence : Option Int) : VerificationResult :=
  { verified := true
    confidence_score := some (metadata_confidence.getD 85)
    doc_type_field := some "id_card"
    error_message := none }

/-- `_verify_identity_document`: dispatch on `document_type` to the NIN,
BVN or generic-ID verifier. -/
def verifyIdentityDocument (document_type : String) (extracted_text : String)
    (metadata_confidence : Option Int) : VerificationResult :=
  if document_type = "nin" then
    verifyNin extracted_text
  else if document_type = "bvn" then
    verifyBvn extracted_text
  else
    verifyIdDocument metadata_confidence

/-- JSON body returned by the face-verification service: keys
`face_detected`, `confidence`, `face_count`, `liveness_detected`,
`error_message`, each possibly absent. -/
structure FaceJson where
  face_detected : Option Bool := none
  confidence : Option Int := none
  face_count : Option Int := none
  liveness_detected : Option Bool := none
  error_message : Option String := none
deriving DecidableEq, Repr

/-- `_verify_face_document`: on a response, `verified` is
`result.get('face_detected', False)` — the liveness flag is recorded but not
required; on `requests.RequestException`, not verified with the exception
message. -/
def verifyFaceDocument (resp : Option FaceJson) : VerificationResult :=
  match resp with
  | some r =>
    { verified := r.face_detected.getD false
      confidence_score := some (r.confidence.getD 0)
      face_count := some (r.face_count.getD 0)
      liveness_detected := some (r.liveness_detected.getD false)
      error_message := r.error_message }
  | none =>
    { verified := false
      error_message := some "Face verification error"
      confidence_score := some 0 }

/-- JSON body returned by the bank-account verification service. -/
structure BankJson where
  account_valid : Option Bool := none
  confidence : Option Int := none
  account_name : Option String := none
  bank_name : Option String := none
  error_message : Option String := none
deriving DecidableEq, Repr

/-- `_verify_bank_account`: the parsed statement fields are sent to the
oracle; on a response, `verified` is `result.get('account_valid', False)`;
on any exception, not verified with the exception message. -/
def verifyBankAccount (resp : Option BankJson) : VerificationResult :=
  match resp with
  | some r =>
    { verified := r.account_valid.getD false
      confidence_score := some (r.confidence.getD 0)
      name := r.account_name
      error_message := r.error_message }
  | none =>
    { verified := false
      error_message := some "Bank verification error"
      confidence_score := some 0 }

/-- The dict returned by the `_process_*` helpers and consumed by
`process_document_async`: every branch of the source sets all five keys. -/
structure ProcessResult where
  status : JobStatus
  extraction_results : Option ExtractionResult
  verification_results : Option VerificationResult
  confidence_score : Int
  error_message : Option String
deriving DecidableEq, Repr

/-- `_process_identity_document` (nin / bvn / id_document): OCR first; on
extraction failure the result is failed with the OCR error; otherwise verify
and complete iff `verified`. -/
def processIdentityDocument (document_type : String) (ocr : Option OcrJson) :
    ProcessResult :=
  let er := extractTextFromImage ocr
  if !er.success then
    { status := .failed
      error_message := er.error
      extraction_results := none
      verification_results := none
      confidence_score := 0 }
  else
    let vr := verifyIdentityDocument document_type er.extracted_text
      er.metadata_confidence
    { status := if vr.verified then .completed else .failed
      extraction_results := some er
      verification_results := some vr
      confidence_score := (vr.confidence_score.getD 0)
      error_message := if vr.verified then none else vr.error_message }

/-- `_process_selfie_document`: face verification directly on the image. -/
def processSelfieDocument (face : Option FaceJson) : ProcessResult :=
  let vr := verifyFaceDocument face
  { status := if vr.verified then .completed else .failed
    extraction_results := none
    verification_results := some vr
    confidence_score := (vr.confidence_score.getD 0)
    error_message := if vr.verified then none else vr.error_message }

/-- `_process_bank_statement`: OCR first; on extraction failure the result
is failed with the OCR error; otherwise verify the parsed account with the
bank oracle and complete iff `verified`. -/
def processBankStatement (ocr : Option OcrJson) (bank : Option BankJson) :
    ProcessResult :=
  let er := extractTextFromImage ocr
  if !er.success then
    { status := .failed
      error_message := er.error
      extraction_results := none
      verification_results := none
      confidence_score := 0 }
  else
    let vr := verifyBankAccount bank
    { status := if vr.verified then .completed else .failed
      extraction_results := some er
      verification_results := some vr
      confidence_score := (vr.confidence_score.getD 0)
      error_message := if vr.verified then none else vr.error_message }

/-- `_process_supporting_document` (insurance / cac_certificate /
guarantor_id): run OCR, then return completed with `verified = True`
unconditionally; extraction success is only recorded as
`validation_passed`, and the confidence is
`extraction_result.get('confidence', 85)` — the extraction dict carries the
confidence under `metadata`, never at the top level, so the default 85 is
what this reads. -/
def processSupportingDocument (document_type : String) (ocr : Option OcrJson) :
    ProcessResult :=
  let er := extractTextFromImage ocr
  { status := .completed
    extraction_results := some er
    verification_results := some
      { verified := true
        doc_type_field := some document_type
        validation_passed := some er.success }
    confidence_score := (er.top_confidence.getD 85)
    error_message := none }

/-- The responses of the external services consulted during one processing
run. -/
structure Oracles where
  ocr : Option OcrJson := none
  face : Option FaceJson := none
  bank : Option BankJson := none
deriving DecidableEq, Repr

/-- `_process_by_type`: dispatch on `document_type`; an unknown type raises
`ValueError`, which the surrounding `except` turns into a failed result
carrying the message. -/
def processByType (document_type : String) (o : Oracles) : ProcessResult :=
  if document_type = "nin" ∨ document_type = "bvn" ∨
      document_type = "id_document" then
    processIdentityDocument document_type o.ocr
  else if document_type = "selfie" then
    processSelfieDocument o.face
  else if document_type = "bank_statement" then
    processBankStatement o.ocr o.bank
  else if document_type = "insurance" ∨ document_type = "cac_certificate" ∨
      document_type = "guarantor_id" then
    processSupportingDocument document_type o.ocr
  else
    { status := .failed
      error_message := some ("Unknown document type: " ++ document_type)
      extraction_results := none
      verification_results := none
      confidence_score := 0 }

/-- A `DocumentProcessingJob` row.  `started_at_set` / `completed_at_set`
record whether the corresponding timestamp column has been written.
The column defaults used at row creation are not part of the repository
(the ORM class is absent); following the spec, a fresh row has
`retry_count = 0` and the constant `max_retries = 3` (see `newJobRow`). -/
structure Job where
  id : Nat
  onboarding_id : Nat
  document_type : String
  document_url : String
  content_hash : String
  job_status : JobStatus
  retry_count : Nat
  max_retries : Nat
  extraction_results : Option ExtractionResult := none
  verification_results : Option VerificationResult := none
  confidence_score : Option Int := none
  error_message : Option String := none
  started_at_set : Bool := false
  completed_at_set : Bool := false
deriving DecidableEq, Repr

/-- A `LandlordOnboarding` row, restricted to the fields this pipeline
writes. -/
structure Onboarding where
  id : Nat
  nin_verified : Bool := false
  bvn_verified : Bool := false
  id_document_verified : Bool := false
  selfie_verified : Bool := false
  bank_verification_status : String := "pending"
  document_processing_status : String := "pending"
deriving DecidableEq, Repr

/-- The relational store: the job table and the onboarding table. -/
structure DB where
  jobs : List Job
  onboardings : List Onboarding
deriving DecidableEq, Repr

/-- `_generate_content_hash`: SHA-256 of the fetched bytes, or, when the
fetch raises, SHA-256 of the UTF-8 encoding of the URL string.  `sha256`
and `encode` stand for `hashlib.sha256(..).hexdigest()` and `str.encode`. -/
def generateContentHash (sha256 : List Nat → String) (encode : String → List Nat)
    (fetched : Option (List Nat)) (document_url : String) : String :=
  match fetched with
  | some bytes => sha256 bytes
  | none => sha256 (encode document_url)

/-- The rollup of `_update_onboarding_document_status`: `completed` when
the completed jobs are all the jobs, else `failed` when at least one job is
failed, else `processing`. -/
def rollupStatus (all_jobs : List Job) : String :=
  let completed_jobs := all_jobs.filter (fun j => decide (j.job_status = .completed))
  let failed_jobs := all_jobs.filter (fun j => decide (j.job_status = .failed))
  if completed_jobs.length = all_jobs.length then
    "completed"
  else if 0 < failed_jobs.length then
    "failed"
  else
    "processing"

/-- The per-document-type field write of
`_update_onboarding_document_status` (the if/elif chain over the five
listed types; any other type touches no per-document field). -/
def applyDocVerified (document_type : String) (verified : Bool)
    (ob : Onboarding) : Onboarding :=
  if document_type = "nin" then
    { ob with nin_verified := verified }
  else if document_type = "bvn" then
    { ob with bvn_verified := verified }
  else if document_type = "id_document" then
    { ob with id_document_verified := verified }
  else if document_type = "selfie" then
    { ob with selfie_verified := verified }
  else if document_type = "bank_statement" then
    { ob with bank_verification_status :=
        if verified then "verified" else "failed" }
  else
    ob

/-- `_update_onboarding_document_status`: look up the onboarding row (no-op
when absent), write the per-document verified field for the five listed
types, then recompute the rollup from all jobs of this onboarding. -/
def updateOnboardingDocumentStatus (onboarding_id : Nat)
    (document_type : String) (result : ProcessResult) (db : DB) : DB :=
  match db.onboardings.find? (fun o => decide (o.id = onboarding_id)) with
  | none => db
  | some ob =>
    let verified :=
      (result.verification_results.map (fun v => v.verified)).getD false
    let ob := applyDocVerified document_type verified ob
    let all_jobs :=
      db.jobs.filter (fun j => decide (j.onboarding_id = onboarding_id))
    let ob := { ob with document_processing_status := rollupStatus all_jobs }
    { db with onboardings :=
        db.onboardings.map (fun o => if o.id = onboarding_id then ob else o) }

/-- Write back a (mutated) job row into the table. -/
def putJob (db : DB) (j : Job) : DB :=
  { db with jobs := db.jobs.map (fun x => if x.id = j.id then j else x) }

/-- The job row as it stands at the final `db.commit()` of
`process_document_async`: marked processing (with `started_at`), then
overwritten with the result of `_process_by_type`; on completion
`completed_at` is set; on failure with retries left the retry counter is
bumped and the row parked in `retrying`. -/
def runJobRow (document_type : String) (o : Oracles) (job : Job) : Job :=
  let job := { job with job_status := .processing, started_at_set := true }
  let result := processByType document_type o
  let job := { job with
    job_status := result.status
    extraction_results := result.extraction_results
    verification_results := result.verification_results
    confidence_score := some result.confidence_score
    error_message := result.error_message }
  if result.status = .completed then
    { job with completed_at_set := true }
  else if result.status = .failed ∧ job.retry_count < job.max_retries then
    { job with
      retry_count := job.retry_count + 1
      job_status := .retrying }
  else
    job

/-- The body of `process_document_async` from `job.job_status =
'processing'` onward, for an already-resolved job row: write the final row
(`runJobRow`), and, exactly when the result is completed, run
`_update_onboarding_document_status` (which sees the flushed job row). -/
def runJob (onboarding_id : Nat) (document_type : String) (o : Oracles)
    (db : DB) (job : Job) : DB :=
  let result := processByType document_type o
  let db := putJob db (runJobRow document_type o job)
  if result.status = .completed then
    updateOnboardingDocumentStatus onboarding_id document_type result db
  else
    db

/-- The row inserted for a new job: status `queued`, the hash just
computed, and the column defaults.

Modelled from the spec: the ORM class `DocumentProcessingJob` (and with it
the column defaults for `retry_count` and `max_retries`) is not in the
repository — only this service and the Pydantic response models are; the
spec gives `retry_count ≥ 0` (initially 0) and `max_retries` the constant
3. -/
def newJobRow (newId : Nat) (onboarding_id : Nat) (document_type : String)
    (document_url : String) (content_hash : String) : Job :=
  { id := newId
    onboarding_id := onboarding_id
    document_type := document_type
    document_url := document_url
    content_hash := content_hash
    job_status := .queued
    retry_count := 0
    max_retries := 3 }

/-- `process_document_async`.  With an explicit `job_id` the row is looked
up (when absent, the run aborts with the job untouched — the `None` row
raises before anything is written, and the handler writes nothing).
Without one, the content hash is computed and any existing job with the
same hash in status `completed` or `processing` is returned unchanged;
otherwise a fresh `queued` row is inserted.  The resolved row then runs
through `runJob`.  The returned `Option Job` is the early-return value of
the dedup branch (the source returns the existing row there and nothing
elsewhere). -/
def processDocumentAsync (sha256 : List Nat → String)
    (encode : String → List Nat) (onboarding_id : Nat)
    (document_type : String) (document_url : String) (job_id : Option Nat)
    (fetched : Option (List Nat)) (o : Oracles) (newId : Nat) (db : DB) :
    DB × Option Job :=
  match job_id with
  | some jid =>
    match db.jobs.find? (fun j => decide (j.id = jid)) with
    | none => (db, none)
    | some job => (runJob onboarding_id document_type o db job, none)
  | none =>
    let content_hash := generateContentHash sha256 encode fetched document_url
    match db.jobs.find? (fun j =>
        decide (j.content_hash = content_hash ∧
          (j.job_status = .completed ∨ j.job_status = .processing))) with
    | some existing => (db, some existing)
    | none =>
      let job := newJobRow newId onboarding_id document_type document_url
        content_hash
      let db := { db with jobs := db.jobs ++ [job] }
      (runJob onboarding_id document_type o db job, none)

/-! ## Concrete inputs used by the witnesses and counterexamples -/

/-- A stand-in for `hashlib.sha256(..).hexdigest()` on concrete inputs. -/
def hashConst : List Nat → String := fun _ => "H"

/-- A stand-in for `str.encode` on concrete inputs. -/
def encodeBytes : String → List Nat := fun s => s.data.map Char.toNat

/-- A `processing` job whose hash matches the concrete resubmission. -/
def jobC1 : Job :=
  { id := 1, onboarding_id := 7, document_type := "nin", document_url := "u",
    content_hash := "H", job_status := .processing, retry_count := 0,
    max_retries := 3 }

def dbC1 : DB := { jobs := [jobC1], onboardings := [] }

/-- A `completed` job one retry short of the limit. -/
def jobC2 : Job :=
  { id := 1, onboarding_id := 7, document_type := "weird", document_url := "u",
    content_hash := "h", job_status := .completed, retry_count := 2,
    max_retries := 3 }

/-- A terminally `failed` job (all jobs for C4's rollup scenario). -/
def jobC4failed : Job :=
  { id := 1, onboarding_id := 7, document_type := "nin", document_url := "u",
    content_hash := "a", job_status := .failed, retry_count := 3,
    max_retries := 3 }

/-- A still-`processing` sibling job. -/
def jobC4processing : Job :=
  { id := 2, onboarding_id := 7, document_type := "bvn", document_url := "v",
    content_hash := "b", job_status := .processing, retry_count := 0,
    max_retries := 3 }

/-- A face-oracle response reporting confidence 150. -/
def faceConf150 : FaceJson := { face_detected := some true, confidence := some 150 }

/-- A fresh selfie job. -/
def jobC5 : Job :=
  { id := 1, onboarding_id := 7, document_type := "selfie", document_url := "u",
    content_hash := "h", job_status := .queued, retry_count := 0,
    max_retries := 3 }

/-- A face-oracle response with a face but explicitly no liveness. -/
def faceNoLive : FaceJson :=
  { face_detected := some true, liveness_detected := some false }

/-- A job whose retries are exhausted. -/
def jobC8 : Job :=
  { id := 1, onboarding_id := 7, document_type := "weird", document_url := "u",
    content_hash := "h", job_status := .retrying, retry_count := 3,
    max_retries := 3 }

/-- An onboarding row still in its initial rollup state. -/
def onbC8 : Onboarding := { id := 7 }

/-- A queued supporting-document job for onboarding 7. -/
def jobC8w : Job :=
  { id := 2, onboarding_id := 7, document_type := "insurance",
    document_url := "u", content_hash := "i", job_status := .queued,
    retry_count := 0, max_retries := 3 }

def dbC8w : DB := { jobs := [jobC8w], onboardings := [onbC8] }

/-- An OCR response whose text holds no digit at all. -/
def ocrHello : OcrJson := { text := some "hello" }

/-- An OCR response with text and no eleven-digit pattern. -/
def ocrNoDigits : OcrJson := { text := some "no digits here!" }

/-- An onboarding row for the frame-condition witness. -/
def onbC10 : Onboarding := { id := 7 }

/-! ## Helper lemmas -/

theorem filter_length_eq_length_iff {α : Type} (l : List α) (p : α → Bool) :
    (l.filter p).length = l.length ↔ ∀ a ∈ l, p a := by
  rw [← List.countP_eq_length_filter]
  exact List.countP_eq_length

theorem filter_length_pos_iff {α : Type} (l : List α) (p : α → Bool) :
    0 < (l.filter p).length ↔ ∃ a ∈ l, p a := by
  rw [List.length_pos, Ne, List.filter_eq_nil_iff]
  push_neg
  simp

/-! ## C1 -/

/-- C1: for every call to `process_document_async` with no `job_id`, if a
job already exists whose `content_hash` equals the fingerprint of the
submitted document (SHA-256 of the fetched bytes, or SHA-256 of the URL
string when the fetch fails) and whose `job_status` is `completed` or
`processing`, the call returns that existing job unchanged, creates no new
job row, and runs no extraction or verification: the store is returned
exactly as it was (for any oracle responses whatsoever). -/
theorem C1_dedup_returns_existing (sha256 : List Nat → String)
    (encode : String → List Nat) (onboarding_id : Nat)
    (document_type document_url : String) (fetched : Option (List Nat))
    (o : Oracles) (newId : Nat) (db : DB)
    (h : ∃ j ∈ db.jobs,
      j.content_hash = generateContentHash sha256 encode fetched document_url ∧
      (j.job_status = JobStatus.completed ∨
        j.job_status = JobStatus.processing)) :
    ∃ e ∈ db.jobs,
      e.content_hash = generateContentHash sha256 encode fetched document_url ∧
      (e.job_status = JobStatus.completed ∨
        e.job_status = JobStatus.processing) ∧
      processDocumentAsync sha256 encode onboarding_id document_type
        document_url none fetched o newId db = (db, some e) := by
  obtain ⟨j, hj, hjh, hjs⟩ := h
  have hsome : (db.jobs.find? (fun j =>
      decide (j.content_hash =
          generateContentHash sha256 encode fetched document_url ∧
        (j.job_status = JobStatus.completed ∨
          j.job_status = JobStatus.processing)))).isSome := by
    apply List.find?_isSome.mpr
    refine ⟨j, hj, ?_⟩
    simp only [decide_eq_true_eq]
    exact ⟨hjh, hjs⟩
  obtain ⟨e, he⟩ := Option.isSome_iff_exists.mp hsome
  have hpe := List.find?_some he
  simp only [decide_eq_true_eq] at hpe
  refine ⟨e, List.mem_of_find?_eq_some he, hpe.1, hpe.2, ?_⟩
  simp only [processDocumentAsync, he]

/-- C1 witness: a store holding a `processing` job whose hash matches the
submitted content; the resubmission returns it and leaves the store as it
was. -/
theorem C1_dedup_returns_existing_witness :
    ∃ e ∈ dbC1.jobs,
      e.content_hash = generateContentHash hashConst encodeBytes (some [1]) "u" ∧
      (e.job_status = JobStatus.completed ∨
        e.job_status = JobStatus.processing) ∧
      processDocumentAsync hashConst encodeBytes 7 "nin" "u" none (some [1])
        {} 99 dbC1 = (dbC1, some e) :=
  C1_dedup_returns_existing hashConst encodeBytes 7 "nin" "u" (some [1]) {} 99
    dbC1 ⟨jobC1, by decide, by decide, Or.inr (by decide)⟩

/-! ## C2 -/

/-- Every `_process_by_type` result has status `completed` or `failed`. -/
theorem processByType_status_cases (document_type : String) (o : Oracles) :
    (processByType document_type o).status = JobStatus.completed ∨
    (processByType document_type o).status = JobStatus.failed := by
  simp only [processByType, processIdentityDocument, processSelfieDocument,
    processBankStatement, processSupportingDocument]
  split_ifs <;> simp

/-- C2 counterexample: the stated transition graph is violated on the code.
A `completed` job (`jobC2`, with `retry_count = 2`, `max_retries = 3`)
passed back to `process_document_async` by its `job_id` is reprocessed
rather than left terminal, and — the run failing (unknown type) — ends
observed in state `retrying` with `retry_count = max_retries = 3`. -/
theorem C2_counterexample :
    jobC2.job_status = JobStatus.completed ∧
    ((processDocumentAsync hashConst encodeBytes 7 "weird" "u" (some 1) none
        {} 99 { jobs := [jobC2], onboardings := [] }).1.jobs.map
      (fun j => (j.job_status, j.retry_count, j.max_retries))) =
      [(JobStatus.retrying, 3, 3)] := by decide

/-- C2 amended: a processing run leaves the job in `completed`, `failed`
or `retrying`; it ends `retrying` exactly after a failure with
`retry_count < max_retries` held at the decision point, with `retry_count`
incremented (so `retry_count` can reach — but never exceed —
`max_retries` in state `retrying`); it stays `failed` only with retries
exhausted and `retry_count` unchanged; `completed_at` is set on
completion.  `completed` is, however, not terminal: a job reinvoked with
its `job_id` is reprocessed unconditionally (see the counterexample). -/
theorem C2_amended_transitions (document_type : String) (o : Oracles)
    (job : Job) :
    ((runJobRow document_type o job).job_status = JobStatus.completed ∨
     (runJobRow document_type o job).job_status = JobStatus.failed ∨
     (runJobRow document_type o job).job_status = JobStatus.retrying) ∧
    ((runJobRow document_type o job).job_status = JobStatus.retrying →
      job.retry_count < job.max_retries ∧
      (runJobRow document_type o job).retry_count = job.retry_count + 1 ∧
      (runJobRow document_type o job).retry_count ≤ job.max_retries) ∧
    ((runJobRow document_type o job).job_status = JobStatus.failed →
      job.max_retries ≤ job.retry_count ∧
      (runJobRow document_type o job).retry_count = job.retry_count) ∧
    ((runJobRow document_type o job).job_status = JobStatus.completed →
      (runJobRow document_type o job).completed_at_set = true) := by
  rcases processByType_status_cases document_type o with hc | hf
  · simp [runJobRow, hc]
  · by_cases hr : job.retry_count < job.max_retries
    · simp [runJobRow, hf, hr]
      omega
    · simp [runJobRow, hf, hr]
      omega

/-- C2 amended witness: the `jobC2` run of the counterexample, seen
through the amended statement: it ends `retrying` with the counter bumped
from 2 to 3 ≤ `max_retries`. -/
theorem C2_amended_transitions_witness :
    jobC2.retry_count < jobC2.max_retries ∧
    (runJobRow "weird" {} jobC2).retry_count = jobC2.retry_count + 1 ∧
    (runJobRow "weird" {} jobC2).retry_count ≤ jobC2.max_retries :=
  (C2_amended_transitions "weird" {} jobC2).2.1 (by decide)

/-! ## C3 -/

/-- C3 counterexample: a fresh submission with the unknown
`document_type = "passport"` does not go straight to `failed` with
`retry_count = 0`: the retry branch makes no terminal/transient
distinction, so the new job (retry_count 0 < max_retries 3) is placed in
`retrying` with `retry_count = 1`. -/
theorem C3_counterexample :
    ((processDocumentAsync hashConst encodeBytes 7 "passport" "u" none none
        {} 1 { jobs := [], onboardings := [] }).1.jobs.map
      (fun j => (j.job_status, j.retry_count))) =
      [(JobStatus.retrying, 1)] := by decide

/-- C3 amended: failures the spec classifies as terminal are retried like
any other failure.  For an unknown `document_type` the result is `failed`
with the classification message, and the job then lands in `retrying` with
`retry_count` incremented whenever `retry_count < max_retries` (in
particular a fresh job ends retrying with `retry_count = 1`); only with
retries exhausted does it stay `failed` with `retry_count` unchanged. -/
theorem C3_amended_unknown_type_retried (document_type : String)
    (o : Oracles) (job : Job)
    (hu : document_type ∉ ["nin", "bvn", "id_document", "selfie",
      "bank_statement", "insurance", "cac_certificate", "guarantor_id"]) :
    (processByType document_type o).status = JobStatus.failed ∧
    (processByType document_type o).error_message =
      some ("Unknown document type: " ++ document_type) ∧
    (runJobRow document_type o job).job_status =
      (if job.retry_count < job.max_retries then JobStatus.retrying
       else JobStatus.failed) ∧
    (runJobRow document_type o job).retry_count =
      (if job.retry_count < job.max_retries then job.retry_count + 1
       else job.retry_count) := by
  simp only [List.mem_cons, List.not_mem_nil, or_false] at hu
  push_neg at hu
  obtain ⟨h1, h2, h3, h4, h5, h6, h7, h8⟩ := hu
  have hp : processByType document_type o =
      { status := .failed
        error_message := some ("Unknown document type: " ++ document_type)
        extraction_results := none
        verification_results := none
        confidence_score := 0 } := by
    simp [processByType, h1, h2, h3, h4, h5, h6, h7, h8]
  refine ⟨by rw [hp], by rw [hp], ?_, ?_⟩ <;>
    by_cases hr : job.retry_count < job.max_retries <;>
    simp [runJobRow, hp, hr]

/-- C3 amended witness: the fresh `"passport"` job of the counterexample
run through the amended statement. -/
theorem C3_amended_unknown_type_retried_witness :
    (processByType "passport" {}).status = JobStatus.failed ∧
    (processByType "passport" {}).error_message =
      some ("Unknown document type: " ++ "passport") ∧
    (runJobRow "passport" {} (newJobRow 1 7 "passport" "u" "H")).job_status =
      (if (newJobRow 1 7 "passport" "u" "H").retry_count <
          (newJobRow 1 7 "passport" "u" "H").max_retries then
        JobStatus.retrying
       else JobStatus.failed) ∧
    (runJobRow "passport" {} (newJobRow 1 7 "passport" "u" "H")).retry_count =
      (if (newJobRow 1 7 "passport" "u" "H").retry_count <
          (newJobRow 1 7 "passport" "u" "H").max_retries then
        (newJobRow 1 7 "passport" "u" "H").retry_count + 1
       else (newJobRow 1 7 "passport" "u" "H").retry_count) :=
  C3_amended_unknown_type_retried "passport" {}
    (newJobRow 1 7 "passport" "u" "H") (by decide)

/-! ## C4 -/

/-- C4 counterexample: the rollup is `failed` although a sibling job is
still `processing` — the claim requires `failed` only when no job is still
queued/processing/retrying, i.e. it requires `processing` here. -/
theorem C4_counterexample :
    jobC4failed.job_status = JobStatus.failed ∧
    jobC4processing.job_status = JobStatus.processing ∧
    rollupStatus [jobC4failed, jobC4processing] = "failed" := by decide

/-- C4 amended: the rollup is `completed` iff every job is `completed`;
`failed` iff at least one job has `job_status = failed` and not all are
completed — regardless of jobs still queued/processing/retrying; and
`processing` otherwise. -/
theorem C4_amended_rollup (jobs : List Job) :
    (rollupStatus jobs = "completed" ↔
      ∀ j ∈ jobs, j.job_status = JobStatus.completed) ∧
    (rollupStatus jobs = "failed" ↔
      ¬(∀ j ∈ jobs, j.job_status = JobStatus.completed) ∧
      ∃ j ∈ jobs, j.job_status = JobStatus.failed) ∧
    (rollupStatus jobs = "processing" ↔
      ¬(∀ j ∈ jobs, j.job_status = JobStatus.completed) ∧
      ¬∃ j ∈ jobs, j.job_status = JobStatus.failed) := by
  have hc := filter_length_eq_length_iff jobs
    (fun j => decide (j.job_status = JobStatus.completed))
  have hfp := filter_length_pos_iff jobs
    (fun j => decide (j.job_status = JobStatus.failed))
  simp only [decide_eq_true_eq] at hc hfp
  have d1 : ("completed" : String) ≠ "failed" := by decide
  have d2 : ("completed" : String) ≠ "processing" := by decide
  have d3 : ("failed" : String) ≠ "processing" := by decide
  simp only [rollupStatus]
  split_ifs with h1 h2
  · have hall := hc.mp h1
    refine ⟨iff_of_true rfl hall, iff_of_false d1 ?_, iff_of_false d2 ?_⟩
    · rintro ⟨hna, -⟩; exact hna hall
    · rintro ⟨hna, -⟩; exact hna hall
  · have hnall : ¬ ∀ j ∈ jobs, j.job_status = JobStatus.completed :=
      fun hall => h1 (hc.mpr hall)
    have hex := hfp.mp h2
    refine ⟨iff_of_false (fun h => d1 h.symm) hnall,
      iff_of_true rfl ⟨hnall, hex⟩, iff_of_false d3 ?_⟩
    rintro ⟨-, hne⟩; exact hne hex
  · have hnall : ¬ ∀ j ∈ jobs, j.job_status = JobStatus.completed :=
      fun hall => h1 (hc.mpr hall)
    have hnex : ¬ ∃ j ∈ jobs, j.job_status = JobStatus.failed :=
      fun he => h2 (hfp.mpr he)
    refine ⟨iff_of_false (fun h => d2 h.symm) hnall,
      iff_of_false (fun h => d3 h.symm) ?_, iff_of_true rfl ⟨hnall, hnex⟩⟩
    rintro ⟨-, hex⟩; exact hnex hex

/-! ## C5 -/

/-- The eleven-digit verifiers report confidence 95 (match) or 0 (no
match). -/
theorem verifyNin_confidence (t : String) :
    (verifyNin t).confidence_score = some 95 ∨
    (verifyNin t).confidence_score = some 0 := by
  unfold verifyNin
  cases searchEleven none t.data <;> simp

theorem verifyBvn_confidence (t : String) :
    (verifyBvn t).confidence_score = some 95 ∨
    (verifyBvn t).confidence_score = some 0 := by
  unfold verifyBvn
  cases searchEleven none t.data <;> simp

/-- A processing run always copies the result confidence onto the job row
(non-null from then on). -/
theorem runJobRow_confidence (document_type : String) (o : Oracles)
    (job : Job) :
    (runJobRow document_type o job).confidence_score =
      some (processByType document_type o).confidence_score := by
  simp only [runJobRow]
  split_ifs <;> rfl

/-- C5 counterexample: the code never clamps: a face-oracle response
reporting confidence 150 is copied verbatim onto the job row, so a job is
observed with non-null `confidence_score = 150 > 100`. -/
theorem C5_counterexample :
    (runJobRow "selfie" { face := some faceConf150 } jobC5).confidence_score =
      some 150 ∧
    ¬((150 : Int) ≤ 100) := by decide

/-- C5 amended: `confidence_score` is copied unclamped from the
oracle-reported confidences (with default 0, and the constants 0, 85, 95
on branches that read no oracle confidence); it therefore lies in [0, 100]
whenever every oracle-reported confidence does — not for every possible
oracle response. -/
theorem C5_amended_bounded_confidence (document_type : String) (o : Oracles)
    (job : Job)
    (hocr : ∀ r, o.ocr = some r →
      ∀ c, r.confidence = some c → 0 ≤ c ∧ c ≤ 100)
    (hface : ∀ r, o.face = some r →
      ∀ c, r.confidence = some c → 0 ≤ c ∧ c ≤ 100)
    (hbank : ∀ r, o.bank = some r →
      ∀ c, r.confidence = some c → 0 ≤ c ∧ c ≤ 100) :
    (runJobRow document_type o job).confidence_score =
      some (processByType document_type o).confidence_score ∧
    0 ≤ (processByType document_type o).confidence_score ∧
    (processByType document_type o).confidence_score ≤ 100 := by
  refine ⟨runJobRow_confidence document_type o job, ?_⟩
  obtain ⟨ocr, face, bank⟩ := o
  simp only at hocr hface hbank
  unfold processByType
  split_ifs with hid hselfie hbankdoc hsupp
  · -- identity documents
    cases ocr with
    | none => simp [processIdentityDocument, extractTextFromImage]
    | some r =>
      rcases hid with h | h | h <;> subst h <;>
        simp only [processIdentityDocument, extractTextFromImage,
          verifyIdentityDocument]
      · rcases verifyNin_confidence (r.text.getD "") with hv | hv <;>
          simp [hv]
      · rcases verifyBvn_confidence (r.text.getD "") with hv | hv <;>
          simp [hv]
      · simp only [verifyIdDocument]
        cases hcf : r.confidence with
        | none => simp
        | some c =>
          have := hocr r rfl c hcf
          simp [hcf]
          omega
  · -- selfie
    cases face with
    | none => simp [processSelfieDocument, verifyFaceDocument]
    | some r =>
      cases hcf : r.confidence with
      | none => simp [processSelfieDocument, verifyFaceDocument, hcf]
      | some c =>
        have := hface r rfl c hcf
        simp [processSelfieDocument, verifyFaceDocument, hcf]
        omega
  · -- bank statement
    cases ocr with
    | none => simp [processBankStatement, extractTextFromImage]
    | some r =>
      cases bank with
      | none => simp [processBankStatement, extractTextFromImage,
          verifyBankAccount]
      | some b =>
        cases hcf : b.confidence with
        | none => simp [processBankStatement, extractTextFromImage,
            verifyBankAccount, hcf]
        | some c =>
          have := hbank b rfl c hcf
          simp [processBankStatement, extractTextFromImage,
            verifyBankAccount, hcf]
          omega
  · -- supporting documents
    cases ocr <;> simp [processSupportingDocument, extractTextFromImage]
  · -- unknown type
    simp

/-- C5 amended witness: with no oracle responses at all, the selfie run
stores `some 0`, inside the bounds. -/
theorem C5_amended_bounded_confidence_witness :
    (runJobRow "selfie" {} jobC5).confidence_score =
      some (processByType "selfie" {}).confidence_score ∧
    0 ≤ (processByType "selfie" {}).confidence_score ∧
    (processByType "selfie" {}).confidence_score ≤ 100 :=
  C5_amended_bounded_confidence "selfie" {} jobC5
    (fun _ h => nomatch h) (fun _ h => nomatch h) (fun _ h => nomatch h)

/-! ## C6 -/

/-- C6 counterexample: a face-oracle response with `face_detected = true`
and `liveness_detected = false` still verifies, and the selfie job
completes — liveness is recorded but never required. -/
theorem C6_counterexample :
    faceNoLive.liveness_detected = some false ∧
    (verifyFaceDocument (some faceNoLive)).verified = true ∧
    (processSelfieDocument (some faceNoLive)).status =
      JobStatus.completed := by decide

/-- C6 amended: for every face-oracle response, `verified` equals
`face_detected` alone (default false); the liveness flag is copied into
the result but ignored by the completion decision, so a selfie job
completes iff the oracle reports `face_detected = true`; without a
response the job fails. -/
theorem C6_amended_face_only (r : FaceJson) :
    (verifyFaceDocument (some r)).verified = r.face_detected.getD false ∧
    (verifyFaceDocument (some r)).liveness_detected =
      some (r.liveness_detected.getD false) ∧
    (processSelfieDocument (some r)).status =
      (if r.face_detected.getD false then JobStatus.completed
       else JobStatus.failed) ∧
    (processSelfieDocument none).status = JobStatus.failed := by
  refine ⟨rfl, rfl, ?_, by decide⟩
  simp only [processSelfieDocument, verifyFaceDocument]

/-! ## C7 -/

/-- C7 counterexample: a supporting-document job whose extraction failed
(no OCR response) still ends `completed` with `verified = true`, and its
confidence is the constant default 85 rather than the extraction
confidence. -/
theorem C7_counterexample :
    (extractTextFromImage none).success = false ∧
    (processSupportingDocument "insurance" none).status =
      JobStatus.completed ∧
    ((processSupportingDocument "insurance" none).verification_results.map
      (fun v => v.verified)) = some true ∧
    (processSupportingDocument "insurance" none).confidence_score = 85 := by
  decide

/-- C7 amended: every supporting-document job completes with
`verified = true`, whether or not extraction succeeded; extraction success
is only recorded as `validation_passed`; and `confidence_score` is always
the default 85, because the confidence sits under the extraction
`metadata`, not at the key the code reads. -/
theorem C7_amended_supporting_always_completes (document_type : String)
    (ocr : Option OcrJson) :
    (processSupportingDocument document_type ocr).status =
      JobStatus.completed ∧
    ((processSupportingDocument document_type ocr).verification_results.map
      (fun v => v.verified)) = some true ∧
    (processSupportingDocument document_type ocr).confidence_score = 85 ∧
    ((processSupportingDocument document_type ocr).verification_results.bind
      (fun v => v.validation_passed)) =
      some (extractTextFromImage ocr).success := by
  unfold processSupportingDocument
  cases ocr <;> simp [extractTextFromImage]

/-! ## C8 -/

/-- The per-document field write never changes the row's id. -/
theorem applyDocVerified_id (document_type : String) (verified : Bool)
    (ob : Onboarding) :
    (applyDocVerified document_type verified ob).id = ob.id := by
  unfold applyDocVerified
  split_ifs <;> rfl

/-- Replacing every row matching the lookup key rewrites what the lookup
finds: if the key was found at all, it now finds the replacement. -/
theorem find?_map_replace (l : List Onboarding) (oid : Nat)
    (ob ob2 : Onboarding)
    (hf : l.find? (fun x => decide (x.id = oid)) = some ob)
    (h2 : ob2.id = oid) :
    (l.map (fun x => if x.id = oid then ob2 else x)).find?
      (fun x => decide (x.id = oid)) = some ob2 := by
  induction l with
  | nil => simp at hf
  | cons a t ih =>
    by_cases ha : a.id = oid
    · rw [List.map_cons, if_pos ha, List.find?_cons_of_pos]
      simp [h2]
    · rw [List.find?_cons_of_neg _ (by simp [ha])] at hf
      rw [List.map_cons, if_neg ha,
        List.find?_cons_of_neg _ (by simp [ha])]
      exact ih hf

/-- C8 counterexample: a job whose retries are exhausted fails terminally,
yet the onboarding record is not recomputed: its rollup field stays at the
stale "pending" even though a recomputation from the job set would store
"failed". -/
theorem C8_counterexample :
    jobC8.retry_count = jobC8.max_retries ∧
    ((processDocumentAsync hashConst encodeBytes 7 "weird" "u" (some 1) none
        {} 99 { jobs := [jobC8], onboardings := [onbC8] }).1.jobs.map
      (fun j => j.job_status)) = [JobStatus.failed] ∧
    (processDocumentAsync hashConst encodeBytes 7 "weird" "u" (some 1) none
        {} 99 { jobs := [jobC8], onboardings := [onbC8] }).1.onboardings =
      [onbC8] ∧
    onbC8.document_processing_status = "pending" ∧
    rollupStatus
      (processDocumentAsync hashConst encodeBytes 7 "weird" "u" (some 1) none
        {} 99 { jobs := [jobC8], onboardings := [onbC8] }).1.jobs =
      "failed" := by decide

/-- C8 amended: the recomputation of the onboarding record happens exactly
when the processing result is `completed`: then the stored rollup equals
`rollupStatus` of the current job set; on any non-completed outcome —
including a terminal failure with retries exhausted — the onboarding table
is left untouched. -/
theorem C8_amended_update_on_completion_only (onboarding_id : Nat)
    (document_type : String) (o : Oracles) (db : DB) (job : Job)
    (ob : Onboarding)
    (hfind : db.onboardings.find? (fun x => decide (x.id = onboarding_id)) =
      some ob) :
    ((processByType document_type o).status = JobStatus.completed →
      ∃ ob2,
        (runJob onboarding_id document_type o db job).onboardings.find?
          (fun x => decide (x.id = onboarding_id)) = some ob2 ∧
        ob2.document_processing_status =
          rollupStatus
            ((putJob db (runJobRow document_type o job)).jobs.filter
              (fun j => decide (j.onboarding_id = onboarding_id)))) ∧
    ((processByType document_type o).status ≠ JobStatus.completed →
      (runJob onboarding_id document_type o db job).onboardings =
        db.onboardings) := by
  have hobid : ob.id = onboarding_id := by
    have hp := List.find?_some hfind
    simpa using hp
  constructor
  · intro hc
    have hput : (putJob db (runJobRow document_type o job)).onboardings =
        db.onboardings := rfl
    simp only [runJob, hc, if_true, updateOnboardingDocumentStatus, hput,
      hfind]
    refine ⟨_, find?_map_replace db.onboardings onboarding_id ob _ hfind ?_,
      rfl⟩
    rw [show (∀ x : Onboarding, ∀ s,
        ({ x with document_processing_status := s } : Onboarding).id = x.id)
      from fun _ _ => rfl]
    rw [applyDocVerified_id]
    exact hobid
  · intro hnc
    simp only [runJob, if_neg hnc]
    rfl

/-- C8 amended witness: a supporting-document job (which always
completes, even with no OCR response) triggers the recomputation; the
stored rollup equals the rollup of the current job set. -/
theorem C8_amended_update_on_completion_only_witness :
    ∃ ob2,
      (runJob 7 "insurance" {} dbC8w jobC8w).onboardings.find?
        (fun x => decide (x.id = 7)) = some ob2 ∧
      ob2.document_processing_status =
        rollupStatus
          ((putJob dbC8w (runJobRow "insurance" {} jobC8w)).jobs.filter
            (fun j => decide (j.onboarding_id = 7))) :=
  (C8_amended_update_on_completion_only 7 "insurance" {} dbC8w jobC8w onbC8
    (by decide)).1 (by decide)

/-! ## C9 -/

/-- C9 counterexample: an `id_document` job whose extracted text
(`"hello"`) holds no fixed-length digit string does not fail — the generic
ID verifier never looks for a pattern and always verifies, so the job
completes with `verified = true`. -/
theorem C9_counterexample :
    searchEleven none ("hello".data) = none ∧
    (processIdentityDocument "id_document" (some ocrHello)).status =
      JobStatus.completed ∧
    ((processIdentityDocument "id_document"
        (some ocrHello)).verification_results.map
      (fun v => v.verified)) = some true := by decide

/-- C9 amended: the pattern requirement holds for the primary/secondary
identity numbers only: a `nin` or `bvn` job whose extracted text has no
eleven-digit match ends `failed` with the pattern-not-found message and
`verified = false`; an `id_document` job, by contrast, always verifies,
pattern or not. -/
theorem C9_amended_pattern_required_nin_bvn (r : OcrJson) (text : String)
    (htext : r.text = some text)
    (hnone : searchEleven none text.data = none) :
    ((processIdentityDocument "nin" (some r)).status = JobStatus.failed ∧
      (processIdentityDocument "nin" (some r)).error_message =
        some "NIN not found in document" ∧
      ((processIdentityDocument "nin" (some r)).verification_results.map
        (fun v => v.verified)) = some false) ∧
    ((processIdentityDocument "bvn" (some r)).status = JobStatus.failed ∧
      (processIdentityDocument "bvn" (some r)).error_message =
        some "BVN not found in document" ∧
      ((processIdentityDocument "bvn" (some r)).verification_results.map
        (fun v => v.verified)) = some false) ∧
    (∀ mc, (verifyIdDocument mc).verified = true) := by
  unfold processIdentityDocument extractTextFromImage
    verifyIdentityDocument verifyNin verifyBvn
  simp [htext, hnone, verifyIdDocument]

/-- C9 amended witness: the concrete text "no digits here!" on nin and bvn
jobs. -/
theorem C9_amended_pattern_required_nin_bvn_witness :
    ((processIdentityDocument "nin" (some ocrNoDigits)).status =
        JobStatus.failed ∧
      (processIdentityDocument "nin" (some ocrNoDigits)).error_message =
        some "NIN not found in document" ∧
      ((processIdentityDocument "nin"
          (some ocrNoDigits)).verification_results.map
        (fun v => v.verified)) = some false) ∧
    ((processIdentityDocument "bvn" (some ocrNoDigits)).status =
        JobStatus.failed ∧
      (processIdentityDocument "bvn" (some ocrNoDigits)).error_message =
        some "BVN not found in document" ∧
      ((processIdentityDocument "bvn"
          (some ocrNoDigits)).verification_results.map
        (fun v => v.verified)) = some false) ∧
    (∀ mc, (verifyIdDocument mc).verified = true) :=
  C9_amended_pattern_required_nin_bvn ocrNoDigits "no digits here!" rfl
    (by decide)

/-! ## C10 -/

/-- C10: a processing run whose result is not `completed` (the job ends
`failed` or `retrying`) leaves the onboarding table — per-document
verified flags, `bank_verification_status` and the
`document_processing_status` rollup — entirely unchanged, on every path of
`process_document_async` (resolved job, dedup hit, fresh job, missing
`job_id`). -/
theorem C10_frame_no_onboarding_write (sha256 : List Nat → String)
    (encode : String → List Nat) (onboarding_id : Nat)
    (document_type document_url : String) (job_id : Option Nat)
    (fetched : Option (List Nat)) (o : Oracles) (newId : Nat) (db : DB)
    (h : (processByType document_type o).status ≠ JobStatus.completed) :
    (processDocumentAsync sha256 encode onboarding_id document_type
      document_url job_id fetched o newId db).1.onboardings =
      db.onboardings := by
  have hrun : ∀ (db0 : DB) (job : Job),
      (runJob onboarding_id document_type o db0 job).onboardings =
        db0.onboardings := by
    intro db0 job
    simp only [runJob, if_neg h]
    rfl
  cases job_id with
  | some jid =>
    simp only [processDocumentAsync]
    cases hf : db.jobs.find? (fun j => decide (j.id = jid)) with
    | none => simp [hf]
    | some job => simp [hf, hrun]
  | none =>
    simp only [processDocumentAsync]
    cases hf : db.jobs.find? (fun j =>
        decide (j.content_hash =
            generateContentHash sha256 encode fetched document_url ∧
          (j.job_status = JobStatus.completed ∨
            j.job_status = JobStatus.processing))) with
    | some e => rfl
    | none => exact hrun _ _

/-- C10 witness: a fresh selfie submission with no oracle response fails,
and the onboarding row is untouched. -/
theorem C10_frame_no_onboarding_write_witness :
    (processByType "selfie" {}).status ≠ JobStatus.completed ∧
    (processDocumentAsync hashConst encodeBytes 7 "selfie" "u" none none {}
      1 { jobs := [], onboardings := [onbC10] }).1.onboardings =
      [onbC10] :=
  ⟨by decide,
    C10_frame_no_onboarding_write hashConst encodeBytes 7 "selfie" "u" none
      none {} 1 { jobs := [], onboardings := [onbC10] } (by decide)⟩

end DocProc
